import Mathlib

/-!
Shallow embedding of `src/purple_to_prom.py` (PurpleAir → Prometheus exporter).

Python JSON-ish runtime values are modelled by `Json` (numbers as exact
rationals), the six module-level Prometheus gauges by `Registry` (one
association list per gauge, keyed by the label triple), and the per-record
try/except block of `check_sensor` by `process_sensor`.  External library
functions whose internals live outside this repository — the JSON *text*
grammar of `json.loads`, numeric-string parsing inside `float`, and the
EPA PM2.5 AQI table of `aqi.to_iaqi` — are parameters, collected in `Ext`.
-/

set_option autoImplicit false

namespace PurpleToProm

mutual

/-- Python values produced by `resp.json()` / `json.loads`: `None`, booleans,
numbers (modelled as exact rationals), strings, lists and dicts. -/
inductive Json : Type where
  | null : Json
  | bool : Bool → Json
  | num : ℚ → Json
  | str : String → Json
  | arr : JsonList → Json
  | obj : JsonFields → Json
  deriving DecidableEq

/-- A Python list of `Json` values. -/
inductive JsonList : Type where
  | nil : JsonList
  | cons : Json → JsonList → JsonList
  deriving DecidableEq

/-- The key/value entries of a Python dict of `Json` values. -/
inductive JsonFields : Type where
  | nil : JsonFields
  | cons : String → Json → JsonFields → JsonFields
  deriving DecidableEq

end

/-- Python truthiness (`if x:`) for `Json` values: `None`, `False`, `0`,
the empty string, the empty list and the empty dict are falsy. -/
def truthy : Json → Bool
  | .null => false
  | .bool b => b
  | .num q => decide (q ≠ 0)
  | .str s => decide (s ≠ "")
  | .arr .nil => false
  | .arr (.cons _ _) => true
  | .obj .nil => false
  | .obj (.cons _ _ _) => true

/-- Truthiness of an optional field (`dict.get` returns `None` when the key
is missing, and `None` is falsy). -/
def truthyOpt : Option Json → Bool
  | none => false
  | some j => truthy j

/-- Lookup of a key among dict entries (first match, as in a Python dict
whose keys are distinct). -/
def fieldsFind : JsonFields → String → Option Json
  | .nil, _ => none
  | .cons k v rest, key => if k = key then some v else fieldsFind rest key

/-- Python `d.get(k)` on the value returned by `json.loads` (source line 104):
raises (`AttributeError`) unless `d` is a dict; on a dict returns the value,
or `None` (here `none`) when the key is missing. -/
def dictGet : Json → String → Except Unit (Option Json)
  | .obj fs, k => .ok (fieldsFind fs k)
  | _, _ => .error ()

/-- External library behaviour the source calls into. -/
structure Ext where
  /-- `json.loads` applied to an actual string: the JSON text decoder. -/
  loads : String → Except Unit Json
  /-- `float` applied to a string: numeric-string parsing. -/
  strFloat : String → Except Unit ℚ
  /-- `aqi.to_iaqi(aqi.POLLUTANT_PM25, str(c), algo=aqi.ALGO_EPA)` as a pure
  function of the concentration `c` (the source always passes `str(c)`). -/
  toIaqi : ℚ → ℚ

/-- Python `json.loads(stats)` (source line 103): `loads` requires a string
argument; any other argument raises (`TypeError`). -/
def json_loads (e : Ext) : Json → Except Unit Json
  | .str s => e.loads s
  | _ => .error ()

/-- Python `float(x)` on a `Json` value: numbers pass through, booleans map
to 0/1, strings go through numeric-string parsing, everything else raises. -/
def pyFloat (e : Ext) : Json → Except Unit ℚ
  | .num q => .ok q
  | .bool b => .ok (if b then 1 else 0)
  | .str s => e.strFloat s
  | _ => .error ()

/-- Decidable equality of `Except` results, used to evaluate the model on
concrete inputs. -/
instance exceptDecEq {α β : Type} [DecidableEq α] [DecidableEq β] :
    DecidableEq (Except α β) := fun x y =>
  match x, y with
  | .error a, .error b =>
    if h : a = b then isTrue (by rw [h])
    else isFalse (by intro hc; cases hc; exact h rfl)
  | .error a, .ok b => isFalse (fun hc => Except.noConfusion hc)
  | .ok a, .error b => isFalse (fun hc => Except.noConfusion hc)
  | .ok a, .ok b =>
    if h : a = b then isTrue (by rw [h])
    else isFalse (by intro hc; cases hc; exact h rfl)

/-- The label triple `(parent_sensor_id, sensor_id, sensor_name)` used as the
key of every gauge.  `sensor_id` and `sensor_name` are whatever `.get`
returned on the record (`none` when the key was missing). -/
structure Identity where
  parent_sensor_id : String
  sensor_id : Option Json
  sensor_name : Option Json
  deriving DecidableEq

/-- One Prometheus gauge's child map (`g._metrics`): label triple → value. -/
abbrev GaugeMap := List (Identity × ℚ)

/-- Gauge write `g.labels(...).set(v)`: upsert under the label triple. -/
def gset : GaugeMap → Identity → ℚ → GaugeMap
  | [], i, v => [(i, v)]
  | (k, w) :: rest, i, v =>
    if k = i then (k, v) :: rest else (k, w) :: gset rest i v

/-- What a scrape observes for one label triple on one gauge. -/
def glookup : GaugeMap → Identity → Option ℚ
  | [], _ => none
  | (k, w) :: rest, i => if k = i then some w else glookup rest i

/-- Gauge removal `g.remove(...)`: deletes the entry, or `none` when the
label triple is absent (a Python `KeyError`). -/
def gremove : GaugeMap → Identity → Option GaugeMap
  | [], _ => none
  | (k, w) :: rest, i =>
    if k = i then some rest else (gremove rest i).map (fun m => (k, w) :: m)

/-- The six module-level gauges (source lines 34–59). -/
structure Registry where
  aqi_g : GaugeMap
  aqi_AQandU_g : GaugeMap
  aqi_LRAPA_g : GaugeMap
  temp_g : GaugeMap
  pressure_g : GaugeMap
  humidity_g : GaugeMap
  deriving DecidableEq

/-- The registry with no entries on any gauge. -/
def emptyRegistry : Registry := ⟨[], [], [], [], [], []⟩

/-- Source lines 62–69 (`clear_metrics`): each of the six gauges has its
child map cleared. -/
def clear_metrics (_r : Registry) : Registry := emptyRegistry

/-- Source lines 148–158: the except-handler's six `remove` calls in source
order (aqi, AQandU, LRAPA, temp, pressure, humidity).  The first `KeyError`
(absent entry) jumps to `except KeyError: pass`, so the remaining removes of
the block are skipped and no error escapes. -/
def remove_identity (r : Registry) (i : Identity) : Registry :=
  match gremove r.aqi_g i with
  | none => r
  | some m1 =>
  match gremove r.aqi_AQandU_g i with
  | none => { r with aqi_g := m1 }
  | some m2 =>
  match gremove r.aqi_LRAPA_g i with
  | none => { r with aqi_g := m1, aqi_AQandU_g := m2 }
  | some m3 =>
  match gremove r.temp_g i with
  | none => { r with aqi_g := m1, aqi_AQandU_g := m2, aqi_LRAPA_g := m3 }
  | some m4 =>
  match gremove r.pressure_g i with
  | none => { r with aqi_g := m1, aqi_AQandU_g := m2, aqi_LRAPA_g := m3,
                     temp_g := m4 }
  | some m5 =>
  match gremove r.humidity_g i with
  | none => { r with aqi_g := m1, aqi_AQandU_g := m2, aqi_LRAPA_g := m3,
                     temp_g := m4, pressure_g := m5 }
  | some m6 => ⟨m1, m2, m3, m4, m5, m6⟩

/-- One entry of the fetched `sensor` array after the six `.get` calls of
source lines 95–100 (`none` = key missing, i.e. Python `None`). -/
structure SensorRecord where
  sensor_index : Option Json
  name : Option Json
  stats : Option Json
  temperature : Option Json
  humidity : Option Json
  pressure : Option Json

/-- The label triple used by every `.labels(...)`/`.remove(...)` call for
this record. -/
def SensorRecord.identity (s : SensorRecord) (parent : String) : Identity :=
  ⟨parent, s.sensor_index, s.name⟩

/-- Source lines 104–130: read `pm2.5_10minute` out of the parsed stats dict
and, when truthy, set the three AQI gauges.  `.error r` means an exception
was raised with the gauges in state `r`. -/
def pm25_sets (e : Ext) (i : Identity) (st : Json) (r : Registry) :
    Except Registry Registry :=
  match dictGet st "pm2.5_10minute" with
  | .error _ => .error r
  | .ok none => .ok r
  | .ok (some rawJ) =>
    if truthy rawJ then
      match pyFloat e rawJ with
      | .error _ => .error r
      | .ok f0 =>
        let pm25_10min := max f0 0
        let i_aqi := e.toIaqi pm25_10min
        let r1 := { r with aqi_g := gset r.aqi_g i i_aqi }
        let pm25_10min_AQandU := 0.778 * pm25_10min + 2.65
        let i_aqi_AQandU := e.toIaqi pm25_10min_AQandU
        let r2 := { r1 with aqi_AQandU_g := gset r1.aqi_AQandU_g i i_aqi_AQandU }
        let pm25_10min_LRAPA := max (0.5 * pm25_10min - 0.66) 0
        let i_aqi_LRAPA := e.toIaqi pm25_10min_LRAPA
        .ok { r2 with aqi_LRAPA_g := gset r2.aqi_LRAPA_g i i_aqi_LRAPA }
    else .ok r

/-- Source lines 132–136: `if temp_f:` then set `temp_g` to `float(temp_f)`
(a failing conversion raises with the gauges unchanged). -/
def temp_step (e : Ext) (i : Identity) (s : SensorRecord) (r : Registry) :
    Except Registry Registry :=
  match s.temperature with
  | none => .ok r
  | some tJ =>
    if truthy tJ then
      match pyFloat e tJ with
      | .error _ => .error r
      | .ok t => .ok { r with temp_g := gset r.temp_g i t }
    else .ok r

/-- Source lines 137–141: `if pressure:` then set `pressure_g`. -/
def pressure_step (e : Ext) (i : Identity) (s : SensorRecord) (r : Registry) :
    Except Registry Registry :=
  match s.pressure with
  | none => .ok r
  | some pJ =>
    if truthy pJ then
      match pyFloat e pJ with
      | .error _ => .error r
      | .ok p => .ok { r with pressure_g := gset r.pressure_g i p }
    else .ok r

/-- Source lines 142–146: `if humidity:` then set `humidity_g`. -/
def humidity_step (e : Ext) (i : Identity) (s : SensorRecord) (r : Registry) :
    Except Registry Registry :=
  match s.humidity with
  | none => .ok r
  | some hJ =>
    if truthy hJ then
      match pyFloat e hJ with
      | .error _ => .error r
      | .ok h => .ok { r with humidity_g := gset r.humidity_g i h }
    else .ok r

/-- Source lines 132–146 in source order: temperature, pressure, humidity. -/
def weather_sets (e : Ext) (i : Identity) (s : SensorRecord) (r : Registry) :
    Except Registry Registry :=
  match temp_step e i s r with
  | .error r1 => .error r1
  | .ok r1 =>
    match pressure_step e i s r1 with
    | .error r2 => .error r2
    | .ok r2 => humidity_step e i s r2

/-- Source lines 102–146, the body of the per-record `try`: everything —
including the temperature/pressure/humidity sets — is nested under
`if stats:`.  `.error r` = an exception escaped the body with gauges `r`. -/
def try_body (e : Ext) (parent : String) (s : SensorRecord) (r : Registry) :
    Except Registry Registry :=
  match s.stats with
  | none => .ok r
  | some stJ =>
    if truthy stJ then
      match json_loads e stJ with
      | .error _ => .error r
      | .ok st =>
        match pm25_sets e (s.identity parent) st r with
        | .error r1 => .error r1
        | .ok r1 => weather_sets e (s.identity parent) s r1
    else .ok r

/-- Source lines 101–159: one iteration of the `for sensor in ...` loop —
the `try` body, and on exception the removal block for this record's label
triple followed by `raise`.  The boolean is `true` when the iteration
re-raised (aborting the loop and the tick). -/
def process_sensor (e : Ext) (parent : String) (s : SensorRecord)
    (r : Registry) : Registry × Bool :=
  match try_body e parent s r with
  | .ok r1 => (r1, false)
  | .error r1 => (remove_identity r1 (s.identity parent), true)

/-- Source line 94: the `for sensor in resp_json.get("sensor")` loop;
a raised exception aborts the remaining records. -/
def process_sensors (e : Ext) (parent : String) :
    List SensorRecord → Registry → Registry × Bool
  | [], r => (r, false)
  | s :: rest, r =>
    match process_sensor e parent s r with
    | (r1, true) => (r1, true)
    | (r1, false) => process_sensors e parent rest r1

/-- One fetched response, at the boundary `check_sensor` inspects: the HTTP
status code, and the result of `resp.json()` projected to the `sensor`
record array (`.error` = `resp.json()` raised `ValueError`). -/
structure Resp where
  status_code : Nat
  body : Except Unit (List SensorRecord)

/-- Source lines 72–159 (`check_sensor`), from the response on: a status
outside 200–299 clears all gauges and raises (lines 84–87); an undecodable
body clears all gauges and re-raises (lines 89–93); otherwise the records
are processed in order.  The boolean is `true` when an exception escaped. -/
def check_sensor (e : Ext) (parent : String) (resp : Resp) (r : Registry) :
    Registry × Bool :=
  if resp.status_code < 200 ∨ 299 < resp.status_code then
    (clear_metrics r, true)
  else
    match resp.body with
    | .error _ => (clear_metrics r, true)
    | .ok sensors => process_sensors e parent sensors r

/-- Source lines 165–171, one tick of `poll`'s inner loop with `check_sensor`
invoked as its signature intends (see `bindPositional` for what the actual
call site passes): each configured id is checked against its response, and
any exception is caught and `break`s the loop.  Returns the final gauges and
the ids whose `check_sensor` call ran this tick. -/
def tick (e : Ext) (env : String → Resp) :
    List String → Registry → Registry × List String
  | [], r => (r, [])
  | sid :: rest, r =>
    match check_sensor e sid (env sid) r with
    | (r1, true) => (r1, [sid])
    | (r1, false) =>
      let next := tick e env rest r1
      (next.1, sid :: next.2)

/-- A formal parameter of a Python function and whether it has a default. -/
structure Param where
  pname : String
  hasDefault : Bool
  deriving DecidableEq

/-- Source lines 72–73: `check_sensor(read_api_key, parent_sensor_id,
private_sensor_key=None)`. -/
def check_sensor_params : List Param :=
  [⟨"read_api_key", false⟩, ⟨"parent_sensor_id", false⟩,
   ⟨"private_sensor_key", true⟩]

/-- Source line 162: `poll(sensor_ids, refresh_seconds)`. -/
def poll_params : List Param :=
  [⟨"sensor_ids", false⟩, ⟨"refresh_seconds", false⟩]

/-- Python positional-argument binding: the call raises `TypeError` (here
`none`) unless every parameter without a default receives an argument and no
argument is left over; otherwise each argument is bound to the parameter in
the same position. -/
def bindPositional (ps : List Param) (args : List String) :
    Option (List (String × String)) :=
  if args.length ≤ ps.length ∧
      (ps.filter (fun p => !p.hasDefault)).length ≤ args.length then
    some ((ps.zip args).map (fun pa => (pa.1.pname, pa.2)))
  else none

/-- Source lines 165–171 as actually written: each iteration executes
`check_sensor(sensor_id)` — one positional argument (line 167).  Listed are
the argument bindings of the `check_sensor` invocations whose body got to
run during one tick; a `TypeError` from binding is caught by the `except`
and `break`s the loop before any fetch happens. -/
def tick_fetch_calls : List String → List (List (String × String))
  | [] => []
  | sid :: rest =>
    match bindPositional check_sensor_params [sid] with
    | none => []
    | some binds => binds :: tick_fetch_calls rest

/-- Keys of a gauge map are distinct (a Python dict cannot hold two entries
under the same key). -/
abbrev nodupKeys (m : GaugeMap) : Prop := (m.map Prod.fst).Nodup

/-- The registry state an exception left behind, whether or not one was
raised (`Except.error` carries the state at raise time). -/
def outReg : Except Registry Registry → Registry
  | .ok r => r
  | .error r => r

/-- Two registry states agree on everything a scrape observes for one
identity, across all six gauges. -/
def sameAt (rOld rNew : Registry) (j : Identity) : Prop :=
  glookup rNew.aqi_g j = glookup rOld.aqi_g j ∧
  glookup rNew.aqi_AQandU_g j = glookup rOld.aqi_AQandU_g j ∧
  glookup rNew.aqi_LRAPA_g j = glookup rOld.aqi_LRAPA_g j ∧
  glookup rNew.temp_g j = glookup rOld.temp_g j ∧
  glookup rNew.pressure_g j = glookup rOld.pressure_g j ∧
  glookup rNew.humidity_g j = glookup rOld.humidity_g j

/-- Registry states reachable through dict-backed gauges: no gauge holds two
entries under the same label triple. -/
abbrev Registry.WF (r : Registry) : Prop :=
  nodupKeys r.aqi_g ∧ nodupKeys r.aqi_AQandU_g ∧ nodupKeys r.aqi_LRAPA_g ∧
  nodupKeys r.temp_g ∧ nodupKeys r.pressure_g ∧ nodupKeys r.humidity_g

/-- The registry state after processing a batch of records in order,
keeping whatever each record's iteration (success or failure path) left. -/
def run_records (e : Ext) (parent : String) (ss : List SensorRecord)
    (r : Registry) : Registry :=
  ss.foldl (fun acc s => (process_sensor e parent s acc).1) r

/-- External hooks that always fail: fine for runs that never consult them. -/
def ext0 : Ext := ⟨fun _ => .error (), fun _ => .error (), fun q => q⟩

/-- External hooks whose JSON text decoder always yields the empty dict and
whose AQI table is the identity map (any pure function is a legitimate
instantiation of the external converter). -/
def extObjNil : Ext := ⟨fun _ => .ok (.obj .nil), fun _ => .error (), fun q => q⟩

/-- A stats dict whose 10-minute PM2.5 average is 0. -/
def zeroBlob : Json := .obj (.cons "pm2.5_10minute" (.num 0) .nil)

/-- External hooks whose JSON text decoder always yields `zeroBlob`. -/
def extZeroPm : Ext := ⟨fun _ => .ok zeroBlob, fun _ => .error (), fun q => q⟩

/-- A stats dict whose 10-minute PM2.5 average is 12.0. -/
def blob12 : Json := .obj (.cons "pm2.5_10minute" (.num 12) .nil)

/-- External hooks whose JSON text decoder always yields `blob12`. -/
def extBlob12 : Ext := ⟨fun _ => .ok blob12, fun _ => .error (), fun q => q⟩

/-- The label triple of the example records below. -/
def idA : Identity := ⟨"p1", some (.num 7), some (.str "A")⟩

/-- A second label triple, for records of another channel. -/
def idB : Identity := ⟨"p1", some (.num 8), some (.str "B")⟩

/-- A record with a numeric temperature but no statistics blob. -/
def recC3 : SensorRecord :=
  ⟨some (.num 7), some (.str "A"), none, some (.num 72), none, none⟩

/-- A record with a stats blob, a truthy temperature, a missing humidity and
a zero pressure. -/
def recC3w : SensorRecord :=
  ⟨some (.num 7), some (.str "A"), some (.str "T"), some (.num 72), none,
   some (.num 0)⟩

/-- A record whose temperature, humidity and pressure all read zero. -/
def recC5 : SensorRecord :=
  ⟨some (.num 7), some (.str "A"), some (.str "E"), some (.num 0),
   some (.num 0), some (.num 0)⟩

/-- A record whose stats decode to a zero 10-minute PM2.5 average. -/
def recZeroPm : SensorRecord :=
  ⟨some (.num 7), some (.str "A"), some (.str "Z"), none, none, none⟩

/-- A record whose stats decode to a 12.0 10-minute PM2.5 average. -/
def rec12 : SensorRecord :=
  ⟨some (.num 7), some (.str "A"), some (.str "ST"), none, none, none⟩

/-- The record of the spec's worked example: temperature 72.5, humidity 40,
pressure 1013, 10-minute PM2.5 average 12.0. -/
def recC8 : SensorRecord :=
  ⟨some (.num 7), some (.str "A"), some (.str "ST"), some (.num 72.5),
   some (.num 40), some (.num 1013)⟩

/-- A record for channel B that exports only a temperature. -/
def recPreB : SensorRecord :=
  ⟨some (.num 8), some (.str "B"), some (.str "E"), some (.num 50), none,
   none⟩

/-- A record whose stats field holds an already-structured non-empty dict. -/
def recBad : SensorRecord :=
  ⟨some (.num 7), some (.str "A"), some (.obj (.cons "x" (.num 1) .nil)),
   none, none, none⟩

/-- A record whose stats field holds an already-structured dict with a
well-formed 10-minute PM2.5 average inside. -/
def recC10w : SensorRecord :=
  ⟨some (.num 7), some (.str "A"),
   some (.obj (.cons "pm2.5_10minute" (.num 12) .nil)), none, none, none⟩

/-- A registry holding only a temperature entry for `idA`. -/
def rC4 : Registry := ⟨[], [], [], [(idA, 1)], [], []⟩

/-- A registry holding entries for `idA` on all six gauges. -/
def rAll : Registry :=
  ⟨[(idA, 1)], [(idA, 2)], [(idA, 3)], [(idA, 4)], [(idA, 5)], [(idA, 6)]⟩

/-- A per-sensor response table: sensor `s2` answers HTTP 500, everything
else answers HTTP 200 with an empty record batch. -/
def env2 : String → Resp :=
  fun sid => if sid = "s2" then ⟨500, .ok []⟩ else ⟨200, .ok []⟩

/-- Entries of one gauge map viewed per identity: set then look up. -/
theorem glookup_gset_self (m : GaugeMap) (i : Identity) (v : ℚ) :
    glookup (gset m i v) i = some v := by
  induction m with
  | nil => simp [gset, glookup]
  | cons hd tl ih =>
    obtain ⟨k, w⟩ := hd
    by_cases h : k = i <;> simp [gset, glookup, h, ih]

/-- Setting one identity leaves every other identity's entry unchanged. -/
theorem glookup_gset_ne (m : GaugeMap) (i j : Identity) (v : ℚ) (h : j ≠ i) :
    glookup (gset m i v) j = glookup m j := by
  induction m with
  | nil => simp [gset, glookup, Ne.symm h]
  | cons hd tl ih =>
    obtain ⟨k, w⟩ := hd
    by_cases hk : k = i
    · subst hk
      simp [gset, glookup, Ne.symm h]
    · simp [gset, glookup, hk, ih]

/-- A gauge `remove` raises `KeyError` exactly when the identity is absent. -/
theorem gremove_eq_none_iff (m : GaugeMap) (i : Identity) :
    gremove m i = none ↔ glookup m i = none := by
  induction m with
  | nil => simp [gremove, glookup]
  | cons hd tl ih =>
    obtain ⟨k, w⟩ := hd
    by_cases h : k = i <;> simp [gremove, glookup, h, ih, Option.map_eq_none']

/-- A successful remove leaves every other identity's entry unchanged. -/
theorem glookup_gremove_ne (m m' : GaugeMap) (i j : Identity) (h : j ≠ i)
    (hm : gremove m i = some m') : glookup m' j = glookup m j := by
  induction m generalizing m' with
  | nil => simp [gremove] at hm
  | cons hd tl ih =>
    obtain ⟨k, w⟩ := hd
    by_cases hk : k = i
    · subst hk
      simp [gremove] at hm
      subst hm
      simp [glookup, Ne.symm h]
    · simp [gremove, hk] at hm
      obtain ⟨m'', hm'', rfl⟩ := hm
      by_cases hj : k = j <;> simp [glookup, hj, ih m'' hm'']

/-- An identity holding an entry occurs among the keys of the map. -/
theorem glookup_mem (m : GaugeMap) (i : Identity) (v : ℚ)
    (h : glookup m i = some v) : i ∈ m.map Prod.fst := by
  induction m with
  | nil => simp [glookup] at h
  | cons hd tl ih =>
    obtain ⟨k, w⟩ := hd
    by_cases hk : k = i
    · simp [hk]
    · simp only [glookup] at h
      rw [if_neg hk] at h
      simp [ih h]

/-- On a duplicate-free gauge map, a successful remove deletes the entry. -/
theorem glookup_gremove_self (m m' : GaugeMap) (i : Identity)
    (hnd : nodupKeys m) (hm : gremove m i = some m') : glookup m' i = none := by
  induction m generalizing m' with
  | nil => simp [gremove] at hm
  | cons hd tl ih =>
    obtain ⟨k, w⟩ := hd
    rw [nodupKeys, List.map_cons, List.nodup_cons] at hnd
    by_cases hk : k = i
    · simp only [gremove] at hm
      rw [if_pos hk] at hm
      cases hm
      cases hlook : glookup tl i with
      | none => rfl
      | some v =>
        exact absurd (glookup_mem tl i v hlook) (hk ▸ hnd.1)
    · simp only [gremove] at hm
      rw [if_neg hk] at hm
      rcases hrem : gremove tl i with _ | m''
      · rw [hrem] at hm
        exact absurd hm (by simp)
      · rw [hrem] at hm
        simp only [Option.map_some'] at hm
        cases hm
        simp only [glookup]
        rw [if_neg hk]
        exact ih m'' hnd.2 hrem

theorem sameAt_refl (r : Registry) (j : Identity) : sameAt r r j :=
  ⟨rfl, rfl, rfl, rfl, rfl, rfl⟩

theorem sameAt_trans (r1 r2 r3 : Registry) (j : Identity)
    (h1 : sameAt r1 r2 j) (h2 : sameAt r2 r3 j) : sameAt r1 r3 j := by
  obtain ⟨a1, b1, c1, d1, e1, f1⟩ := h1
  obtain ⟨a2, b2, c2, d2, e2, f2⟩ := h2
  exact ⟨a2.trans a1, b2.trans b1, c2.trans c1, d2.trans d1,
         e2.trans e1, f2.trans f1⟩

/-- The removal block never touches entries of other identities. -/
theorem remove_identity_sameAt (r : Registry) (i j : Identity) (h : j ≠ i) :
    sameAt r (remove_identity r i) j := by
  have G := fun (m m' : GaugeMap) (hm : gremove m i = some m') =>
    glookup_gremove_ne m m' i j h hm
  unfold remove_identity
  rcases h1 : gremove r.aqi_g i with _ | m1
  · exact sameAt_refl r j
  rcases h2 : gremove r.aqi_AQandU_g i with _ | m2
  · exact ⟨G _ _ h1, rfl, rfl, rfl, rfl, rfl⟩
  rcases h3 : gremove r.aqi_LRAPA_g i with _ | m3
  · exact ⟨G _ _ h1, G _ _ h2, rfl, rfl, rfl, rfl⟩
  rcases h4 : gremove r.temp_g i with _ | m4
  · exact ⟨G _ _ h1, G _ _ h2, G _ _ h3, rfl, rfl, rfl⟩
  rcases h5 : gremove r.pressure_g i with _ | m5
  · exact ⟨G _ _ h1, G _ _ h2, G _ _ h3, G _ _ h4, rfl, rfl⟩
  rcases h6 : gremove r.humidity_g i with _ | m6
  · exact ⟨G _ _ h1, G _ _ h2, G _ _ h3, G _ _ h4, G _ _ h5, rfl⟩
  · exact ⟨G _ _ h1, G _ _ h2, G _ _ h3, G _ _ h4, G _ _ h5, G _ _ h6⟩

/-- The removal block never creates entries: an empty gauge stays empty. -/
theorem remove_identity_nil (r : Registry) (i : Identity) :
    (r.aqi_g = [] → (remove_identity r i).aqi_g = []) ∧
    (r.aqi_AQandU_g = [] → (remove_identity r i).aqi_AQandU_g = []) ∧
    (r.aqi_LRAPA_g = [] → (remove_identity r i).aqi_LRAPA_g = []) ∧
    (r.temp_g = [] → (remove_identity r i).temp_g = []) ∧
    (r.pressure_g = [] → (remove_identity r i).pressure_g = []) ∧
    (r.humidity_g = [] → (remove_identity r i).humidity_g = []) := by
  unfold remove_identity
  rcases h1 : gremove r.aqi_g i with _ | m1
  case' some => rcases h2 : gremove r.aqi_AQandU_g i with _ | m2
  case' some.some => rcases h3 : gremove r.aqi_LRAPA_g i with _ | m3
  case' some.some.some => rcases h4 : gremove r.temp_g i with _ | m4
  case' some.some.some.some => rcases h5 : gremove r.pressure_g i with _ | m5
  case' some.some.some.some.some =>
    rcases h6 : gremove r.humidity_g i with _ | m6
  all_goals
    refine ⟨fun hx => ?_, fun hx => ?_, fun hx => ?_, fun hx => ?_,
            fun hx => ?_, fun hx => ?_⟩ <;>
      simp_all [gremove]

/-- The pm2.5 block touches only the three AQI gauges, whatever happens. -/
theorem pm25_sets_weather_frame (e : Ext) (i : Identity) (st : Json)
    (r : Registry) :
    (outReg (pm25_sets e i st r)).temp_g = r.temp_g ∧
    (outReg (pm25_sets e i st r)).pressure_g = r.pressure_g ∧
    (outReg (pm25_sets e i st r)).humidity_g = r.humidity_g := by
  cases hg : dictGet st "pm2.5_10minute" with
  | error u => simp [pm25_sets, hg, outReg]
  | ok oj =>
    cases oj with
    | none => simp [pm25_sets, hg, outReg]
    | some rawJ =>
      by_cases ht : truthy rawJ
      · cases hp : pyFloat e rawJ with
        | error u => simp [pm25_sets, hg, ht, hp, outReg]
        | ok f0 => simp [pm25_sets, hg, ht, hp, outReg]
      · simp [pm25_sets, hg, ht, outReg]

/-- The temperature block touches only the temperature gauge. -/
theorem temp_step_frame (e : Ext) (i : Identity) (s : SensorRecord)
    (r : Registry) :
    (outReg (temp_step e i s r)).aqi_g = r.aqi_g ∧
    (outReg (temp_step e i s r)).aqi_AQandU_g = r.aqi_AQandU_g ∧
    (outReg (temp_step e i s r)).aqi_LRAPA_g = r.aqi_LRAPA_g ∧
    (outReg (temp_step e i s r)).pressure_g = r.pressure_g ∧
    (outReg (temp_step e i s r)).humidity_g = r.humidity_g := by
  cases hs : s.temperature with
  | none => simp [temp_step, hs, outReg]
  | some vJ =>
    by_cases ht : truthy vJ
    · cases hp : pyFloat e vJ with
      | error u => simp [temp_step, hs, ht, hp, outReg]
      | ok v => simp [temp_step, hs, ht, hp, outReg]
    · simp [temp_step, hs, ht, outReg]

/-- The pressure block touches only the pressure gauge. -/
theorem pressure_step_frame (e : Ext) (i : Identity) (s : SensorRecord)
    (r : Registry) :
    (outReg (pressure_step e i s r)).aqi_g = r.aqi_g ∧
    (outReg (pressure_step e i s r)).aqi_AQandU_g = r.aqi_AQandU_g ∧
    (outReg (pressure_step e i s r)).aqi_LRAPA_g = r.aqi_LRAPA_g ∧
    (outReg (pressure_step e i s r)).temp_g = r.temp_g ∧
    (outReg (pressure_step e i s r)).humidity_g = r.humidity_g := by
  cases hs : s.pressure with
  | none => simp [pressure_step, hs, outReg]
  | some vJ =>
    by_cases ht : truthy vJ
    · cases hp : pyFloat e vJ with
      | error u => simp [pressure_step, hs, ht, hp, outReg]
      | ok v => simp [pressure_step, hs, ht, hp, outReg]
    · simp [pressure_step, hs, ht, outReg]

/-- The humidity block touches only the humidity gauge. -/
theorem humidity_step_frame (e : Ext) (i : Identity) (s : SensorRecord)
    (r : Registry) :
    (outReg (humidity_step e i s r)).aqi_g = r.aqi_g ∧
    (outReg (humidity_step e i s r)).aqi_AQandU_g = r.aqi_AQandU_g ∧
    (outReg (humidity_step e i s r)).aqi_LRAPA_g = r.aqi_LRAPA_g ∧
    (outReg (humidity_step e i s r)).temp_g = r.temp_g ∧
    (outReg (humidity_step e i s r)).pressure_g = r.pressure_g := by
  cases hs : s.humidity with
  | none => simp [humidity_step, hs, outReg]
  | some vJ =>
    by_cases ht : truthy vJ
    · cases hp : pyFloat e vJ with
      | error u => simp [humidity_step, hs, ht, hp, outReg]
      | ok v => simp [humidity_step, hs, ht, hp, outReg]
    · simp [humidity_step, hs, ht, outReg]

/-- A falsy (or missing) temperature field leaves everything untouched. -/
theorem temp_step_falsy (e : Ext) (i : Identity) (s : SensorRecord)
    (r : Registry) (h : truthyOpt s.temperature = false) :
    temp_step e i s r = .ok r := by
  unfold temp_step
  cases hs : s.temperature with
  | none => rfl
  | some tJ => rw [hs] at h; simp [truthyOpt] at h; simp [h]

/-- A falsy (or missing) pressure field leaves everything untouched. -/
theorem pressure_step_falsy (e : Ext) (i : Identity) (s : SensorRecord)
    (r : Registry) (h : truthyOpt s.pressure = false) :
    pressure_step e i s r = .ok r := by
  unfold pressure_step
  cases hs : s.pressure with
  | none => rfl
  | some pJ => rw [hs] at h; simp [truthyOpt] at h; simp [h]

/-- A falsy (or missing) humidity field leaves everything untouched. -/
theorem humidity_step_falsy (e : Ext) (i : Identity) (s : SensorRecord)
    (r : Registry) (h : truthyOpt s.humidity = false) :
    humidity_step e i s r = .ok r := by
  unfold humidity_step
  cases hs : s.humidity with
  | none => rfl
  | some hJ => rw [hs] at h; simp [truthyOpt] at h; simp [h]

/-- A falsy `pm2.5_10minute` entry (zero included) sets none of the three
AQI gauges and raises nothing. -/
theorem pm25_sets_falsy (e : Ext) (i : Identity) (st : Json) (r : Registry)
    (oj : Option Json) (hget : dictGet st "pm2.5_10minute" = .ok oj)
    (h : truthyOpt oj = false) : pm25_sets e i st r = .ok r := by
  unfold pm25_sets
  rw [hget]
  cases oj with
  | none => rfl
  | some rawJ => simp [truthyOpt] at h; simp [h]

/-- After a successful temperature block, the temperature gauge holds an
entry for the identity exactly when it already did or the field is truthy. -/
theorem temp_step_ok_isSome (e : Ext) (i : Identity) (s : SensorRecord)
    (r r' : Registry) (h : temp_step e i s r = .ok r') :
    (glookup r'.temp_g i).isSome
      = (truthyOpt s.temperature || (glookup r.temp_g i).isSome) := by
  cases hs : s.temperature with
  | none =>
    simp only [temp_step, hs] at h
    cases h
    simp [truthyOpt]
  | some vJ =>
    by_cases ht : truthy vJ
    · simp only [temp_step, hs, ht, if_true] at h
      cases hp : pyFloat e vJ with
      | error u =>
        simp only [hp] at h
        exact Except.noConfusion h
      | ok v =>
        simp only [hp] at h
        cases h
        simp [truthyOpt, ht, glookup_gset_self]
    · simp only [temp_step, hs] at h
      rw [if_neg ht] at h
      cases h
      simp [truthyOpt, Bool.eq_false_iff.mpr ht]

/-- After a successful pressure block, the pressure gauge holds an entry for
the identity exactly when it already did or the field is truthy. -/
theorem pressure_step_ok_isSome (e : Ext) (i : Identity) (s : SensorRecord)
    (r r' : Registry) (h : pressure_step e i s r = .ok r') :
    (glookup r'.pressure_g i).isSome
      = (truthyOpt s.pressure || (glookup r.pressure_g i).isSome) := by
  cases hs : s.pressure with
  | none =>
    simp only [pressure_step, hs] at h
    cases h
    simp [truthyOpt]
  | some vJ =>
    by_cases ht : truthy vJ
    · simp only [pressure_step, hs, ht, if_true] at h
      cases hp : pyFloat e vJ with
      | error u =>
        simp only [hp] at h
        exact Except.noConfusion h
      | ok v =>
        simp only [hp] at h
        cases h
        simp [truthyOpt, ht, glookup_gset_self]
    · simp only [pressure_step, hs] at h
      rw [if_neg ht] at h
      cases h
      simp [truthyOpt, Bool.eq_false_iff.mpr ht]

/-- After a successful humidity block, the humidity gauge holds an entry for
the identity exactly when it already did or the field is truthy. -/
theorem humidity_step_ok_isSome (e : Ext) (i : Identity) (s : SensorRecord)
    (r r' : Registry) (h : humidity_step e i s r = .ok r') :
    (glookup r'.humidity_g i).isSome
      = (truthyOpt s.humidity || (glookup r.humidity_g i).isSome) := by
  cases hs : s.humidity with
  | none =>
    simp only [humidity_step, hs] at h
    cases h
    simp [truthyOpt]
  | some vJ =>
    by_cases ht : truthy vJ
    · simp only [humidity_step, hs, ht, if_true] at h
      cases hp : pyFloat e vJ with
      | error u =>
        simp only [hp] at h
        exact Except.noConfusion h
      | ok v =>
        simp only [hp] at h
        cases h
        simp [truthyOpt, ht, glookup_gset_self]
    · simp only [humidity_step, hs] at h
      rw [if_neg ht] at h
      cases h
      simp [truthyOpt, Bool.eq_false_iff.mpr ht]

/-- The pm2.5 block never touches entries of other identities. -/
theorem pm25_sets_sameAt (e : Ext) (i : Identity) (st : Json) (r : Registry)
    (j : Identity) (h : j ≠ i) :
    sameAt r (outReg (pm25_sets e i st r)) j := by
  cases hg : dictGet st "pm2.5_10minute" with
  | error u => simp only [pm25_sets, hg, outReg]; exact sameAt_refl r j
  | ok oj =>
    cases oj with
    | none => simp only [pm25_sets, hg, outReg]; exact sameAt_refl r j
    | some rawJ =>
      by_cases ht : truthy rawJ
      · cases hp : pyFloat e rawJ with
        | error u =>
          simp only [pm25_sets, hg, ht, if_true, hp, outReg]
          exact sameAt_refl r j
        | ok f0 =>
          simp only [pm25_sets, hg, ht, if_true, hp, outReg]
          exact ⟨glookup_gset_ne _ i j _ h, glookup_gset_ne _ i j _ h,
                 glookup_gset_ne _ i j _ h, rfl, rfl, rfl⟩
      · simp only [pm25_sets, hg, ht, if_false, Bool.false_eq_true, outReg]
        exact sameAt_refl r j

/-- The temperature block never touches entries of other identities. -/
theorem temp_step_sameAt (e : Ext) (i : Identity) (s : SensorRecord)
    (r : Registry) (j : Identity) (h : j ≠ i) :
    sameAt r (outReg (temp_step e i s r)) j := by
  cases hs : s.temperature with
  | none => simp only [temp_step, hs, outReg]; exact sameAt_refl r j
  | some vJ =>
    by_cases ht : truthy vJ
    · cases hp : pyFloat e vJ with
      | error u =>
        simp only [temp_step, hs, ht, if_true, hp, outReg]
        exact sameAt_refl r j
      | ok v =>
        simp only [temp_step, hs, ht, if_true, hp, outReg]
        exact ⟨rfl, rfl, rfl, glookup_gset_ne _ i j _ h, rfl, rfl⟩
    · simp only [temp_step, hs, ht, if_false, Bool.false_eq_true, outReg]
      exact sameAt_refl r j

/-- The pressure block never touches entries of other identities. -/
theorem pressure_step_sameAt (e : Ext) (i : Identity) (s : SensorRecord)
    (r : Registry) (j : Identity) (h : j ≠ i) :
    sameAt r (outReg (pressure_step e i s r)) j := by
  cases hs : s.pressure with
  | none => simp only [pressure_step, hs, outReg]; exact sameAt_refl r j
  | some vJ =>
    by_cases ht : truthy vJ
    · cases hp : pyFloat e vJ with
      | error u =>
        simp only [pressure_step, hs, ht, if_true, hp, outReg]
        exact sameAt_refl r j
      | ok v =>
        simp only [pressure_step, hs, ht, if_true, hp, outReg]
        exact ⟨rfl, rfl, rfl, rfl, glookup_gset_ne _ i j _ h, rfl⟩
    · simp only [pressure_step, hs, ht, if_false, Bool.false_eq_true, outReg]
      exact sameAt_refl r j

/-- The humidity block never touches entries of other identities. -/
theorem humidity_step_sameAt (e : Ext) (i : Identity) (s : SensorRecord)
    (r : Registry) (j : Identity) (h : j ≠ i) :
    sameAt r (outReg (humidity_step e i s r)) j := by
  cases hs : s.humidity with
  | none => simp only [humidity_step, hs, outReg]; exact sameAt_refl r j
  | some vJ =>
    by_cases ht : truthy vJ
    · cases hp : pyFloat e vJ with
      | error u =>
        simp only [humidity_step, hs, ht, if_true, hp, outReg]
        exact sameAt_refl r j
      | ok v =>
        simp only [humidity_step, hs, ht, if_true, hp, outReg]
        exact ⟨rfl, rfl, rfl, rfl, rfl, glookup_gset_ne _ i j _ h⟩
    · simp only [humidity_step, hs, ht, if_false, Bool.false_eq_true, outReg]
      exact sameAt_refl r j

/-- The weather blocks never touch entries of other identities. -/
theorem weather_sets_sameAt (e : Ext) (i : Identity) (s : SensorRecord)
    (r : Registry) (j : Identity) (h : j ≠ i) :
    sameAt r (outReg (weather_sets e i s r)) j := by
  cases h1 : temp_step e i s r with
  | error r1 =>
    simp only [weather_sets, h1, outReg]
    have hA := temp_step_sameAt e i s r j h
    rw [h1] at hA
    simpa [outReg] using hA
  | ok r1 =>
    have hA : sameAt r r1 j := by
      have := temp_step_sameAt e i s r j h
      rw [h1] at this
      simpa [outReg] using this
    cases h2 : pressure_step e i s r1 with
    | error r2 =>
      simp only [weather_sets, h1, h2, outReg]
      have hB := pressure_step_sameAt e i s r1 j h
      rw [h2] at hB
      simp only [outReg] at hB
      exact sameAt_trans _ _ _ _ hA hB
    | ok r2 =>
      have hB : sameAt r1 r2 j := by
        have := pressure_step_sameAt e i s r1 j h
        rw [h2] at this
        simpa [outReg] using this
      simp only [weather_sets, h1, h2, outReg]
      have hC := humidity_step_sameAt e i s r2 j h
      exact sameAt_trans _ _ _ _ (sameAt_trans _ _ _ _ hA hB) hC

/-- The whole try-block body never touches entries of other identities. -/
theorem try_body_sameAt (e : Ext) (parent : String) (s : SensorRecord)
    (r : Registry) (j : Identity) (h : j ≠ s.identity parent) :
    sameAt r (outReg (try_body e parent s r)) j := by
  cases hst : s.stats with
  | none => simp only [try_body, hst, outReg]; exact sameAt_refl r j
  | some stJ =>
    by_cases ht : truthy stJ
    · cases hl : json_loads e stJ with
      | error u =>
        simp only [try_body, hst, ht, if_true, hl, outReg]
        exact sameAt_refl r j
      | ok st =>
        cases hpm : pm25_sets e (s.identity parent) st r with
        | error r1 =>
          simp only [try_body, hst, ht, if_true, hl, hpm, outReg]
          have := pm25_sets_sameAt e (s.identity parent) st r j h
          rw [hpm] at this
          simpa [outReg] using this
        | ok r1 =>
          simp only [try_body, hst, ht, if_true, hl, hpm]
          have hA : sameAt r r1 j := by
            have := pm25_sets_sameAt e (s.identity parent) st r j h
            rw [hpm] at this
            simpa [outReg] using this
          exact sameAt_trans _ _ _ _ hA
            (weather_sets_sameAt e (s.identity parent) s r1 j h)
    · simp only [try_body, hst, ht, if_false, Bool.false_eq_true, outReg]
      exact sameAt_refl r j

/-- Processing one record never touches entries of other identities —
whether it succeeds or fails (sets and removes all key the record's own
label triple). -/
theorem process_sensor_sameAt (e : Ext) (parent : String) (s : SensorRecord)
    (r : Registry) (j : Identity) (h : j ≠ s.identity parent) :
    sameAt r (process_sensor e parent s r).1 j := by
  cases htb : try_body e parent s r with
  | ok r1 =>
    simp only [process_sensor, htb]
    have := try_body_sameAt e parent s r j h
    rw [htb] at this
    simpa [outReg] using this
  | error r1 =>
    simp only [process_sensor, htb]
    have hA : sameAt r r1 j := by
      have := try_body_sameAt e parent s r j h
      rw [htb] at this
      simpa [outReg] using this
    exact sameAt_trans _ _ _ _ hA
      (remove_identity_sameAt r1 (s.identity parent) j h)

/-- A successful weather pass decomposes into three successful blocks. -/
theorem weather_sets_ok_inv (e : Ext) (i : Identity) (s : SensorRecord)
    (r rw : Registry) (h : weather_sets e i s r = .ok rw) :
    ∃ r1 r2, temp_step e i s r = .ok r1 ∧ pressure_step e i s r1 = .ok r2 ∧
      humidity_step e i s r2 = .ok rw := by
  unfold weather_sets at h
  cases h1 : temp_step e i s r with
  | error r1 => rw [h1] at h; exact Except.noConfusion h
  | ok r1 =>
    rw [h1] at h
    cases h2 : pressure_step e i s r1 with
    | error r2 =>
      simp only [h2] at h
      exact Except.noConfusion h
    | ok r2 =>
      simp only [h2] at h
      exact ⟨r1, r2, rfl, h2, h⟩

/-- The pm2.5 block on a truthy numeric entry: the exact gauges written. -/
theorem pm25_sets_num (e : Ext) (i : Identity) (st : Json) (r : Registry)
    (v : ℚ) (hget : dictGet st "pm2.5_10minute" = .ok (some (.num v)))
    (hv : v ≠ 0) :
    pm25_sets e i st r = .ok
      ⟨gset r.aqi_g i (e.toIaqi (max v 0)),
       gset r.aqi_AQandU_g i (e.toIaqi (0.778 * max v 0 + 2.65)),
       gset r.aqi_LRAPA_g i (e.toIaqi (max (0.5 * max v 0 - 0.66) 0)),
       r.temp_g, r.pressure_g, r.humidity_g⟩ := by
  simp only [pm25_sets, hget, truthy, hv, decide_not, decide_False,
    Bool.not_false, if_true, pyFloat]

/-- If its first remove raises `KeyError` (no AQI entry for the identity),
the removal block does nothing at all. -/
theorem remove_identity_first_missing (r : Registry) (i : Identity)
    (h : glookup r.aqi_g i = none) : remove_identity r i = r := by
  unfold remove_identity
  rw [(gremove_eq_none_iff r.aqi_g i).mpr h]

/-- Whatever happens later in the removal block, a successful first remove
is what the AQI gauge ends up as. -/
theorem remove_identity_aqi_of_some (r : Registry) (i : Identity)
    (m1 : GaugeMap) (h : gremove r.aqi_g i = some m1) :
    (remove_identity r i).aqi_g = m1 := by
  unfold remove_identity
  rw [h]
  rcases h2 : gremove r.aqi_AQandU_g i with _ | m2
  · rfl
  rcases h3 : gremove r.aqi_LRAPA_g i with _ | m3
  · rfl
  rcases h4 : gremove r.temp_g i with _ | m4
  · rfl
  rcases h5 : gremove r.pressure_g i with _ | m5
  · rfl
  rcases h6 : gremove r.humidity_g i with _ | m6
  · rfl
  · rfl

/-- When the identity has an entry on every gauge, the removal block deletes
all six. -/
theorem remove_identity_all_present (r : Registry) (i : Identity)
    (hwf : r.WF)
    (h1 : (glookup r.aqi_g i).isSome)
    (h2 : (glookup r.aqi_AQandU_g i).isSome)
    (h3 : (glookup r.aqi_LRAPA_g i).isSome)
    (h4 : (glookup r.temp_g i).isSome)
    (h5 : (glookup r.pressure_g i).isSome)
    (h6 : (glookup r.humidity_g i).isSome) :
    glookup (remove_identity r i).aqi_g i = none ∧
    glookup (remove_identity r i).aqi_AQandU_g i = none ∧
    glookup (remove_identity r i).aqi_LRAPA_g i = none ∧
    glookup (remove_identity r i).temp_g i = none ∧
    glookup (remove_identity r i).pressure_g i = none ∧
    glookup (remove_identity r i).humidity_g i = none := by
  obtain ⟨w1, w2, w3, w4, w5, w6⟩ := hwf
  have S : ∀ (m : GaugeMap), (glookup m i).isSome → ∃ m', gremove m i = some m' := by
    intro m hm
    cases hg : gremove m i with
    | some m' => exact ⟨m', rfl⟩
    | none =>
      rw [gremove_eq_none_iff] at hg
      rw [hg] at hm
      simp at hm
  obtain ⟨m1, g1⟩ := S _ h1
  obtain ⟨m2, g2⟩ := S _ h2
  obtain ⟨m3, g3⟩ := S _ h3
  obtain ⟨m4, g4⟩ := S _ h4
  obtain ⟨m5, g5⟩ := S _ h5
  obtain ⟨m6, g6⟩ := S _ h6
  unfold remove_identity
  rw [g1, g2, g3, g4, g5, g6]
  exact ⟨glookup_gremove_self _ m1 i w1 g1, glookup_gremove_self _ m2 i w2 g2,
         glookup_gremove_self _ m3 i w3 g3, glookup_gremove_self _ m4 i w4 g4,
         glookup_gremove_self _ m5 i w5 g5, glookup_gremove_self _ m6 i w6 g6⟩

/-- Running the removal block twice does nothing more than running it once:
the second run's first remove always raises `KeyError`. -/
theorem remove_identity_idem (r : Registry) (i : Identity)
    (hnd : nodupKeys r.aqi_g) :
    remove_identity (remove_identity r i) i = remove_identity r i := by
  cases hg : gremove r.aqi_g i with
  | none =>
    have hr : remove_identity r i = r :=
      remove_identity_first_missing r i ((gremove_eq_none_iff _ _).mp hg)
    rw [hr, hr]
  | some m1 =>
    have ha : (remove_identity r i).aqi_g = m1 :=
      remove_identity_aqi_of_some r i m1 hg
    apply remove_identity_first_missing
    rw [ha]
    exact glookup_gremove_self _ m1 i hnd hg

/-- Record iterations that raise nothing pass the loop on to the rest. -/
theorem process_sensors_ok_prefix (e : Ext) (parent : String)
    (pre rest : List SensorRecord) (r : Registry)
    (hpre : ∀ s ∈ pre, ∀ r0 : Registry, (process_sensor e parent s r0).2 = false) :
    process_sensors e parent (pre ++ rest) r
      = process_sensors e parent rest (run_records e parent pre r) := by
  induction pre generalizing r with
  | nil => simp [run_records]
  | cons s0 tl ih =>
    have hs0 : (process_sensor e parent s0 r).2 = false := hpre s0 (by simp) r
    rcases hps : process_sensor e parent s0 r with ⟨r1, b⟩
    rw [hps] at hs0
    simp only at hs0
    subst hs0
    have hrun : run_records e parent (s0 :: tl) r = run_records e parent tl r1 := by
      simp [run_records, hps]
    rw [List.cons_append, hrun]
    show (match process_sensor e parent s0 r with
          | (r1, true) => (r1, true)
          | (r1, false) => process_sensors e parent (tl ++ rest) r1)
        = process_sensors e parent rest (run_records e parent tl r1)
    rw [hps]
    exact ih r1 (fun s hs r0 => hpre s (by simp [hs]) r0)

/-- The three weather blocks never touch the three AQI gauges. -/
theorem weather_sets_aqi_frame (e : Ext) (i : Identity) (s : SensorRecord)
    (r : Registry) :
    (outReg (weather_sets e i s r)).aqi_g = r.aqi_g ∧
    (outReg (weather_sets e i s r)).aqi_AQandU_g = r.aqi_AQandU_g ∧
    (outReg (weather_sets e i s r)).aqi_LRAPA_g = r.aqi_LRAPA_g := by
  cases h1 : temp_step e i s r with
  | error r1 =>
    have hf := temp_step_frame e i s r
    rw [h1] at hf
    simp only [weather_sets, h1, outReg] at hf ⊢
    exact ⟨hf.1, hf.2.1, hf.2.2.1⟩
  | ok r1 =>
    have hf1 := temp_step_frame e i s r
    rw [h1] at hf1
    simp only [outReg] at hf1
    cases h2 : pressure_step e i s r1 with
    | error r2 =>
      have hf2 := pressure_step_frame e i s r1
      rw [h2] at hf2
      simp only [weather_sets, h1, h2, outReg] at hf2 ⊢
      exact ⟨hf2.1.trans hf1.1, hf2.2.1.trans hf1.2.1, hf2.2.2.1.trans hf1.2.2.1⟩
    | ok r2 =>
      have hf2 := pressure_step_frame e i s r1
      rw [h2] at hf2
      simp only [outReg] at hf2
      have hf3 := humidity_step_frame e i s r2
      simp only [weather_sets, h1, h2, outReg] at hf3 ⊢
      exact ⟨(hf3.1.trans hf2.1).trans hf1.1,
             (hf3.2.1.trans hf2.2.1).trans hf1.2.1,
             (hf3.2.2.1.trans hf2.2.2.1).trans hf1.2.2.1⟩

/-- With a falsy temperature field, the weather pass leaves the temperature
gauge exactly as it was, whatever happens. -/
theorem weather_sets_temp_falsy (e : Ext) (i : Identity) (s : SensorRecord)
    (r : Registry) (htf : truthyOpt s.temperature = false) :
    (outReg (weather_sets e i s r)).temp_g = r.temp_g := by
  have h1 : temp_step e i s r = .ok r := temp_step_falsy e i s r htf
  cases h2 : pressure_step e i s r with
  | error r2 =>
    have hp := (pressure_step_frame e i s r).2.2.2.1
    rw [h2] at hp
    simp only [weather_sets, h1, h2, outReg] at hp ⊢
    exact hp
  | ok r2 =>
    have hp := (pressure_step_frame e i s r).2.2.2.1
    rw [h2] at hp
    simp only [outReg] at hp
    have hh := (humidity_step_frame e i s r2).2.2.2.1
    simp only [weather_sets, h1, h2, outReg] at hh ⊢
    exact hh.trans hp

/-- With a falsy pressure field, the weather pass leaves the pressure gauge
exactly as it was, whatever happens. -/
theorem weather_sets_pressure_falsy (e : Ext) (i : Identity) (s : SensorRecord)
    (r : Registry) (hpf : truthyOpt s.pressure = false) :
    (outReg (weather_sets e i s r)).pressure_g = r.pressure_g := by
  cases h1 : temp_step e i s r with
  | error r1 =>
    have ht := (temp_step_frame e i s r).2.2.2.1
    rw [h1] at ht
    simp only [weather_sets, h1, outReg] at ht ⊢
    exact ht
  | ok r1 =>
    have h1f := (temp_step_frame e i s r).2.2.2.1
    rw [h1] at h1f
    simp only [outReg] at h1f
    have h2 : pressure_step e i s r1 = .ok r1 := pressure_step_falsy e i s r1 hpf
    have hh := (humidity_step_frame e i s r1).2.2.2.2
    simp only [weather_sets, h1, h2, outReg] at hh ⊢
    exact hh.trans h1f

/-- With a falsy humidity field, the weather pass leaves the humidity gauge
exactly as it was, whatever happens. -/
theorem weather_sets_humidity_falsy (e : Ext) (i : Identity) (s : SensorRecord)
    (r : Registry) (hhf : truthyOpt s.humidity = false) :
    (outReg (weather_sets e i s r)).humidity_g = r.humidity_g := by
  cases h1 : temp_step e i s r with
  | error r1 =>
    have ht := (temp_step_frame e i s r).2.2.2.2
    rw [h1] at ht
    simp only [weather_sets, h1, outReg] at ht ⊢
    exact ht
  | ok r1 =>
    have h1f := (temp_step_frame e i s r).2.2.2.2
    rw [h1] at h1f
    simp only [outReg] at h1f
    cases h2 : pressure_step e i s r1 with
    | error r2 =>
      have hp := (pressure_step_frame e i s r1).2.2.2.2
      rw [h2] at hp
      simp only [weather_sets, h1, h2, outReg] at hp ⊢
      exact hp.trans h1f
    | ok r2 =>
      have h2f := (pressure_step_frame e i s r1).2.2.2.2
      rw [h2] at h2f
      simp only [outReg] at h2f
      have h3 : humidity_step e i s r2 = .ok r2 := humidity_step_falsy e i s r2 hhf
      simp only [weather_sets, h1, h2, h3, outReg]
      exact h2f.trans h1f

/-- With a falsy temperature field, the whole try body leaves the
temperature gauge exactly as it was, whatever happens. -/
theorem try_body_temp_falsy (e : Ext) (parent : String) (s : SensorRecord)
    (r : Registry) (htf : truthyOpt s.temperature = false) :
    (outReg (try_body e parent s r)).temp_g = r.temp_g := by
  cases hst : s.stats with
  | none => simp [try_body, hst, outReg]
  | some stJ =>
    by_cases ht : truthy stJ
    · cases hl : json_loads e stJ with
      | error u => simp [try_body, hst, ht, hl, outReg]
      | ok st =>
        cases hpm : pm25_sets e (s.identity parent) st r with
        | error rp =>
          have hfr := (pm25_sets_weather_frame e (s.identity parent) st r).1
          rw [hpm] at hfr
          simp only [try_body, hst, ht, if_true, hl, hpm, outReg] at hfr ⊢
          exact hfr
        | ok rp =>
          have hfr := (pm25_sets_weather_frame e (s.identity parent) st r).1
          rw [hpm] at hfr
          simp only [outReg] at hfr
          simp only [try_body, hst, ht, if_true, hl, hpm]
          rw [weather_sets_temp_falsy e (s.identity parent) s rp htf, hfr]
    · simp [try_body, hst, ht, outReg]

/-- With a falsy pressure field, the whole try body leaves the pressure
gauge exactly as it was, whatever happens. -/
theorem try_body_pressure_falsy (e : Ext) (parent : String) (s : SensorRecord)
    (r : Registry) (hpf : truthyOpt s.pressure = false) :
    (outReg (try_body e parent s r)).pressure_g = r.pressure_g := by
  cases hst : s.stats with
  | none => simp [try_body, hst, outReg]
  | some stJ =>
    by_cases ht : truthy stJ
    · cases hl : json_loads e stJ with
      | error u => simp [try_body, hst, ht, hl, outReg]
      | ok st =>
        cases hpm : pm25_sets e (s.identity parent) st r with
        | error rp =>
          have hfr := (pm25_sets_weather_frame e (s.identity parent) st r).2.1
          rw [hpm] at hfr
          simp only [try_body, hst, ht, if_true, hl, hpm, outReg] at hfr ⊢
          exact hfr
        | ok rp =>
          have hfr := (pm25_sets_weather_frame e (s.identity parent) st r).2.1
          rw [hpm] at hfr
          simp only [outReg] at hfr
          simp only [try_body, hst, ht, if_true, hl, hpm]
          rw [weather_sets_pressure_falsy e (s.identity parent) s rp hpf, hfr]
    · simp [try_body, hst, ht, outReg]

/-- With a falsy humidity field, the whole try body leaves the humidity
gauge exactly as it was, whatever happens. -/
theorem try_body_humidity_falsy (e : Ext) (parent : String) (s : SensorRecord)
    (r : Registry) (hhf : truthyOpt s.humidity = false) :
    (outReg (try_body e parent s r)).humidity_g = r.humidity_g := by
  cases hst : s.stats with
  | none => simp [try_body, hst, outReg]
  | some stJ =>
    by_cases ht : truthy stJ
    · cases hl : json_loads e stJ with
      | error u => simp [try_body, hst, ht, hl, outReg]
      | ok st =>
        cases hpm : pm25_sets e (s.identity parent) st r with
        | error rp =>
          have hfr := (pm25_sets_weather_frame e (s.identity parent) st r).2.2
          rw [hpm] at hfr
          simp only [try_body, hst, ht, if_true, hl, hpm, outReg] at hfr ⊢
          exact hfr
        | ok rp =>
          have hfr := (pm25_sets_weather_frame e (s.identity parent) st r).2.2
          rw [hpm] at hfr
          simp only [outReg] at hfr
          simp only [try_body, hst, ht, if_true, hl, hpm]
          rw [weather_sets_humidity_falsy e (s.identity parent) s rp hhf, hfr]
    · simp [try_body, hst, ht, outReg]

/-- With a falsy `pm2.5_10minute` entry in the parsed stats, the try body
leaves the raw-AQI gauge exactly as it was, whatever happens. -/
theorem try_body_aqi_zero (e : Ext) (parent : String) (s : SensorRecord)
    (r : Registry) (stJ st : Json) (oj : Option Json)
    (hst : s.stats = some stJ) (hl : json_loads e stJ = .ok st)
    (hget : dictGet st "pm2.5_10minute" = .ok oj)
    (hoj : truthyOpt oj = false) :
    (outReg (try_body e parent s r)).aqi_g = r.aqi_g := by
  by_cases ht : truthy stJ
  · have hpm : pm25_sets e (s.identity parent) st r = .ok r :=
      pm25_sets_falsy e (s.identity parent) st r oj hget hoj
    simp only [try_body, hst, ht, if_true, hl, hpm]
    exact (weather_sets_aqi_frame e (s.identity parent) s r).1
  · simp [try_body, hst, ht, outReg]

/-- With a falsy temperature field an empty temperature gauge stays empty
through the whole record iteration, removal path included. -/
theorem process_sensor_temp_nil (e : Ext) (parent : String) (s : SensorRecord)
    (r : Registry) (htf : truthyOpt s.temperature = false) (hr : r.temp_g = []) :
    (process_sensor e parent s r).1.temp_g = [] := by
  have ho := try_body_temp_falsy e parent s r htf
  cases htb : try_body e parent s r with
  | ok r1 =>
    rw [htb] at ho
    simp only [outReg] at ho
    simp only [process_sensor, htb]
    rw [ho]
    exact hr
  | error r1 =>
    rw [htb] at ho
    simp only [outReg] at ho
    simp only [process_sensor, htb]
    exact (remove_identity_nil r1 (s.identity parent)).2.2.2.1 (ho.trans hr)

/-- With a falsy pressure field an empty pressure gauge stays empty through
the whole record iteration, removal path included. -/
theorem process_sensor_pressure_nil (e : Ext) (parent : String)
    (s : SensorRecord) (r : Registry) (hpf : truthyOpt s.pressure = false)
    (hr : r.pressure_g = []) :
    (process_sensor e parent s r).1.pressure_g = [] := by
  have ho := try_body_pressure_falsy e parent s r hpf
  cases htb : try_body e parent s r with
  | ok r1 =>
    rw [htb] at ho
    simp only [outReg] at ho
    simp only [process_sensor, htb]
    rw [ho]
    exact hr
  | error r1 =>
    rw [htb] at ho
    simp only [outReg] at ho
    simp only [process_sensor, htb]
    exact (remove_identity_nil r1 (s.identity parent)).2.2.2.2.1 (ho.trans hr)

/-- With a falsy humidity field an empty humidity gauge stays empty through
the whole record iteration, removal path included. -/
theorem process_sensor_humidity_nil (e : Ext) (parent : String)
    (s : SensorRecord) (r : Registry) (hhf : truthyOpt s.humidity = false)
    (hr : r.humidity_g = []) :
    (process_sensor e parent s r).1.humidity_g = [] := by
  have ho := try_body_humidity_falsy e parent s r hhf
  cases htb : try_body e parent s r with
  | ok r1 =>
    rw [htb] at ho
    simp only [outReg] at ho
    simp only [process_sensor, htb]
    rw [ho]
    exact hr
  | error r1 =>
    rw [htb] at ho
    simp only [outReg] at ho
    simp only [process_sensor, htb]
    exact (remove_identity_nil r1 (s.identity parent)).2.2.2.2.2 (ho.trans hr)

/-- With a falsy `pm2.5_10minute` entry an empty raw-AQI gauge stays empty
through the whole record iteration, removal path included. -/
theorem process_sensor_aqi_nil (e : Ext) (parent : String) (s : SensorRecord)
    (r : Registry) (stJ st : Json) (oj : Option Json)
    (hst : s.stats = some stJ) (hl : json_loads e stJ = .ok st)
    (hget : dictGet st "pm2.5_10minute" = .ok oj)
    (hoj : truthyOpt oj = false) (hr : r.aqi_g = []) :
    (process_sensor e parent s r).1.aqi_g = [] := by
  have ho := try_body_aqi_zero e parent s r stJ st oj hst hl hget hoj
  cases htb : try_body e parent s r with
  | ok r1 =>
    rw [htb] at ho
    simp only [outReg] at ho
    simp only [process_sensor, htb]
    rw [ho]
    exact hr
  | error r1 =>
    rw [htb] at ho
    simp only [outReg] at ho
    simp only [process_sensor, htb]
    exact (remove_identity_nil r1 (s.identity parent)).1 (ho.trans hr)

/-- C1: the claim says every tick invokes the fetch operation with the read
API key, the parent sensor id and the optional private key for each
configured sensor.  In the code this never happens: `poll(sensor_ids,
refresh_seconds)` has no read-API-key parameter at all, and its call
`check_sensor(sensor_id)` passes one positional argument to a function with
two required parameters, so binding raises `TypeError` before any request —
the `except` catches it and breaks the tick, and the set of fetch
invocations per tick is empty for every configured list. -/
theorem claim_C1 :
    (∀ sid : String, bindPositional check_sensor_params [sid] = none) ∧
    (∀ ids : List String, tick_fetch_calls ids = []) ∧
    poll_params.map Param.pname = ["sensor_ids", "refresh_seconds"] := by
  refine ⟨fun sid => rfl, fun ids => ?_, rfl⟩
  cases ids with
  | nil => rfl
  | cons sid rest => rfl

/-- C2: a fetch-level failure (status outside 200–299, or a body on which
`resp.json()` raises) for a sensor mid-list clears every entry of all six
gauges and aborts the tick: the final registry is empty and exactly the
configured prefix through the failing sensor was processed, with the
suffix untouched. -/
theorem claim_C2 (e : Ext) (env : String → Resp) (pre : List String)
    (bad : String) (post : List String) (r : Registry)
    (hpre : ∀ sid ∈ pre, ∀ r0 : Registry,
      (check_sensor e sid (env sid) r0).2 = false)
    (hbad : (env bad).status_code < 200 ∨ 299 < (env bad).status_code ∨
            (env bad).body = .error ()) :
    tick e env (pre ++ bad :: post) r = (emptyRegistry, pre ++ [bad]) := by
  induction pre generalizing r with
  | nil =>
    have hcs : check_sensor e bad (env bad) r = (emptyRegistry, true) := by
      unfold check_sensor
      rcases hbad with h | h | h
      · rw [if_pos (Or.inl h)]
        rfl
      · rw [if_pos (Or.inr h)]
        rfl
      · by_cases hst : (env bad).status_code < 200 ∨ 299 < (env bad).status_code
        · rw [if_pos hst]
          rfl
        · rw [if_neg hst, h]
          rfl
    simp only [List.nil_append, tick]
    rw [hcs]
  | cons a tl ih =>
    have ha : (check_sensor e a (env a) r).2 = false := hpre a (by simp) r
    rcases hca : check_sensor e a (env a) r with ⟨r1, b⟩
    rw [hca] at ha
    simp only at ha
    subst ha
    simp only [List.cons_append, tick]
    rw [hca]
    simp only
    simp only [List.append_eq]
    rw [ih r1 (fun sid hs r0 => hpre sid (List.mem_cons_of_mem a hs) r0)]

/-- Witness for C2: three configured sensors, the middle one answering
HTTP 500; the registry starts with a stale entry that gets cleared. -/
theorem claim_C2_witness :
    tick ext0 env2 (["s1"] ++ "s2" :: ["s3"]) ⟨[(idA, 3)], [], [], [], [], []⟩
      = (emptyRegistry, ["s1"] ++ ["s2"]) :=
  claim_C2 ext0 env2 ["s1"] "s2" ["s3"] ⟨[(idA, 3)], [], [], [], [], []⟩
    (by
      intro sid hs r0
      simp only [List.mem_singleton] at hs
      subst hs
      rfl)
    (by
      right
      left
      decide)

/-- C4 fails on the code: the six removes run inside one `try` whose
`except KeyError: pass` aborts the rest of the block, so an entry missing
under an earlier gauge prevents removal of entries present under later
ones.  Concretely, with only a temperature entry present, the removal
removes nothing. -/
theorem claim_C4_counterexample :
    glookup rC4.temp_g idA = some 1 ∧
    remove_identity rC4 idA = rC4 ∧
    glookup (remove_identity rC4 idA).temp_g idA = some 1 := by decide

/-- C4 amended: the removal block attempts the six removes in source order
(aqi, AQandU, LRAPA, temperature, pressure, humidity) and stops silently at
the first gauge with no entry for the identity, leaving later entries in
place.  When the identity has an entry on every gauge all six are removed;
when the first gauge has none, nothing at all is removed; and running the
block twice never does more than running it once.  No error escapes in any
case (the model is a total function). -/
theorem claim_C4 (r : Registry) (i : Identity) (hwf : r.WF) :
    (((glookup r.aqi_g i).isSome ∧ (glookup r.aqi_AQandU_g i).isSome ∧
      (glookup r.aqi_LRAPA_g i).isSome ∧ (glookup r.temp_g i).isSome ∧
      (glookup r.pressure_g i).isSome ∧ (glookup r.humidity_g i).isSome) →
      (glookup (remove_identity r i).aqi_g i = none ∧
       glookup (remove_identity r i).aqi_AQandU_g i = none ∧
       glookup (remove_identity r i).aqi_LRAPA_g i = none ∧
       glookup (remove_identity r i).temp_g i = none ∧
       glookup (remove_identity r i).pressure_g i = none ∧
       glookup (remove_identity r i).humidity_g i = none)) ∧
    (glookup r.aqi_g i = none → remove_identity r i = r) ∧
    remove_identity (remove_identity r i) i = remove_identity r i :=
  ⟨fun hall => remove_identity_all_present r i hwf hall.1 hall.2.1 hall.2.2.1
      hall.2.2.2.1 hall.2.2.2.2.1 hall.2.2.2.2.2,
   remove_identity_first_missing r i,
   remove_identity_idem r i hwf.1⟩

/-- Witness for C4 amended: on a registry holding all six entries for the
identity, removal deletes them all, and a second removal changes nothing. -/
theorem claim_C4_witness :
    (glookup (remove_identity rAll idA).aqi_g idA = none ∧
     glookup (remove_identity rAll idA).aqi_AQandU_g idA = none ∧
     glookup (remove_identity rAll idA).aqi_LRAPA_g idA = none ∧
     glookup (remove_identity rAll idA).temp_g idA = none ∧
     glookup (remove_identity rAll idA).pressure_g idA = none ∧
     glookup (remove_identity rAll idA).humidity_g idA = none) ∧
    remove_identity (remove_identity rAll idA) idA = remove_identity rAll idA :=
  ⟨(claim_C4 rAll idA (by decide)).1 (by decide),
   (claim_C4 rAll idA (by decide)).2.2⟩

/-- C7: a record without a statistics blob changes nothing at all — the
whole try body is nested under `if stats:`, so the iteration succeeds, no
gauge entry is set or removed, and every previously-set value (the three
PM2.5-derived gauges included) is left untouched. -/
theorem claim_C7 (e : Ext) (parent : String) (s : SensorRecord) (r : Registry)
    (h : s.stats = none) : process_sensor e parent s r = (r, false) := by
  simp [process_sensor, try_body, h]

/-- Witness for C7: a record with a temperature but no stats leaves a
registry with previously-set AQI values exactly as it was. -/
theorem claim_C7_witness :
    process_sensor ext0 "p1" recC3 ⟨[(idA, 5)], [(idA, 6)], [(idA, 7)], [], [], []⟩
      = (⟨[(idA, 5)], [(idA, 6)], [(idA, 7)], [], [], []⟩, false) :=
  claim_C7 ext0 "p1" recC3 ⟨[(idA, 5)], [(idA, 6)], [(idA, 7)], [], [], []⟩ rfl

/-- C10 fails on the code as universally stated: a stats field holding the
already-structured empty dict is present and is not a JSON-encoded string,
yet the record's iteration succeeds without failing — Python's `if stats:`
treats the empty dict as absent before `json.loads` is ever reached. -/
theorem claim_C10_counterexample :
    process_sensor ext0 "p1"
      ⟨some (.num 7), some (.str "A"), some (.obj .nil), none, none, none⟩
      emptyRegistry = (emptyRegistry, false) := by decide

/-- C10 amended: for every record whose stats field is present, truthy
(non-empty), and not a string, `json.loads` raises `TypeError`: the
transform fails, the removal block runs on that identity, and the raised
exception aborts the record loop — even when the blob's contents are
otherwise well-formed. -/
theorem claim_C10 (e : Ext) (parent : String) (s : SensorRecord)
    (r : Registry) (rest : List SensorRecord) (stJ : Json)
    (hst : s.stats = some stJ) (htr : truthy stJ = true)
    (hnotstr : ∀ t : String, stJ ≠ .str t) :
    process_sensor e parent s r = (remove_identity r (s.identity parent), true) ∧
    process_sensors e parent (s :: rest) r
      = (remove_identity r (s.identity parent), true) := by
  have hl : json_loads e stJ = .error () := by
    cases stJ with
    | str t => exact absurd rfl (hnotstr t)
    | null => rfl
    | bool b => rfl
    | num q => rfl
    | arr xs => rfl
    | obj fs => rfl
  have htb : try_body e parent s r = .error r := by
    simp [try_body, hst, htr, hl]
  constructor
  · simp [process_sensor, htb]
  · simp [process_sensors, process_sensor, htb]

/-- Witness for C10 amended: an already-structured stats dict carrying a
well-formed 10-minute PM2.5 average makes the iteration fail, run the
removal for that identity, and abort the loop. -/
theorem claim_C10_witness :
    process_sensor ext0 "p1" recC10w rAll = (remove_identity rAll idA, true) ∧
    process_sensors ext0 "p1" [recC10w] rAll
      = (remove_identity rAll idA, true) :=
  claim_C10 ext0 "p1" recC10w rAll []
    (.obj (.cons "pm2.5_10minute" (.num 12) .nil)) rfl (by decide)
    (fun t h => Json.noConfusion h)

/-- C3 fails on the code: the temperature/pressure/humidity exports are
nested inside `if stats:` (source lines 102–146), so a record carrying a
present, numeric temperature but no statistics blob exports no temperature
at all — the claim demands the export depend only on the field itself. -/
theorem claim_C3_counterexample :
    recC3.temperature = some (.num 72) ∧ truthy (.num 72) = true ∧
    process_sensor ext0 "p1" recC3 emptyRegistry = (emptyRegistry, false) ∧
    glookup (process_sensor ext0 "p1" recC3 emptyRegistry).1.temp_g
      (recC3.identity "p1") = none := by decide

/-- C3 amended: when the record's iteration succeeds, each of temperature,
pressure and humidity is exported exactly when the statistics blob is
truthy AND its own raw field is truthy — the three are mutually
independent, but all three are gated on the statistics blob. -/
theorem claim_C3 (e : Ext) (parent : String) (s : SensorRecord) (r : Registry)
    (hok : (process_sensor e parent s r).2 = false)
    (hfresh : glookup r.temp_g (s.identity parent) = none ∧
              glookup r.pressure_g (s.identity parent) = none ∧
              glookup r.humidity_g (s.identity parent) = none) :
    ((glookup (process_sensor e parent s r).1.temp_g (s.identity parent)).isSome
        = (truthyOpt s.stats && truthyOpt s.temperature)) ∧
    ((glookup (process_sensor e parent s r).1.pressure_g (s.identity parent)).isSome
        = (truthyOpt s.stats && truthyOpt s.pressure)) ∧
    ((glookup (process_sensor e parent s r).1.humidity_g (s.identity parent)).isSome
        = (truthyOpt s.stats && truthyOpt s.humidity)) := by
  cases htb : try_body e parent s r with
  | error r1 => simp [process_sensor, htb] at hok
  | ok r1 =>
    have hres : (process_sensor e parent s r).1 = r1 := by
      simp [process_sensor, htb]
    rw [hres]
    cases hst : s.stats with
    | none =>
      simp only [try_body, hst] at htb
      cases htb
      simp [truthyOpt, hst, hfresh.1, hfresh.2.1, hfresh.2.2]
    | some stJ =>
      by_cases ht : truthy stJ
      · cases hl : json_loads e stJ with
        | error u =>
          simp only [try_body, hst, ht, if_true, hl] at htb
          exact Except.noConfusion htb
        | ok st =>
          cases hpm : pm25_sets e (s.identity parent) st r with
          | error rp =>
            simp only [try_body, hst, ht, if_true, hl, hpm] at htb
            exact Except.noConfusion htb
          | ok rp =>
            simp only [try_body, hst, ht, if_true, hl, hpm] at htb
            have hwfr := pm25_sets_weather_frame e (s.identity parent) st r
            rw [hpm] at hwfr
            simp only [outReg] at hwfr
            obtain ⟨hT0, hP0, hH0⟩ := hwfr
            obtain ⟨ra, rb, hT, hP, hH⟩ :=
              weather_sets_ok_inv e (s.identity parent) s rp r1 htb
            have eT : (glookup r1.temp_g (s.identity parent)).isSome
                = truthyOpt s.temperature := by
              have f1 := (humidity_step_frame e (s.identity parent) s rb).2.2.2.1
              rw [hH] at f1
              simp only [outReg] at f1
              have f2 := (pressure_step_frame e (s.identity parent) s ra).2.2.2.1
              rw [hP] at f2
              simp only [outReg] at f2
              have f3 := temp_step_ok_isSome e (s.identity parent) s rp ra hT
              rw [f1, f2, f3, hT0, hfresh.1]
              simp
            have eP : (glookup r1.pressure_g (s.identity parent)).isSome
                = truthyOpt s.pressure := by
              have f1 := (humidity_step_frame e (s.identity parent) s rb).2.2.2.2
              rw [hH] at f1
              simp only [outReg] at f1
              have f2 := pressure_step_ok_isSome e (s.identity parent) s ra rb hP
              have f3 := (temp_step_frame e (s.identity parent) s rp).2.2.2.1
              rw [hT] at f3
              simp only [outReg] at f3
              rw [f1, f2, f3, hP0, hfresh.2.1]
              simp
            have eH : (glookup r1.humidity_g (s.identity parent)).isSome
                = truthyOpt s.humidity := by
              have f1 := humidity_step_ok_isSome e (s.identity parent) s rb r1 hH
              have f2 := (pressure_step_frame e (s.identity parent) s ra).2.2.2.2
              rw [hP] at f2
              simp only [outReg] at f2
              have f3 := (temp_step_frame e (s.identity parent) s rp).2.2.2.2
              rw [hT] at f3
              simp only [outReg] at f3
              rw [f1, f2, f3, hH0, hfresh.2.2]
              simp
            rw [eT, eP, eH]
            simp [truthyOpt, hst, ht]
      · simp only [try_body, hst, ht, if_false, Bool.false_eq_true] at htb
        cases htb
        simp [truthyOpt, hst, Bool.eq_false_iff.mpr ht, hfresh.1, hfresh.2.1,
          hfresh.2.2]

/-- Witness for C3 amended: a record with a truthy stats blob, a truthy
temperature, a missing humidity and a zero pressure exports exactly the
temperature. -/
theorem claim_C3_witness :
    ((glookup (process_sensor extObjNil "p1" recC3w emptyRegistry).1.temp_g
        (recC3w.identity "p1")).isSome
        = (truthyOpt recC3w.stats && truthyOpt recC3w.temperature)) ∧
    ((glookup (process_sensor extObjNil "p1" recC3w emptyRegistry).1.pressure_g
        (recC3w.identity "p1")).isSome
        = (truthyOpt recC3w.stats && truthyOpt recC3w.pressure)) ∧
    ((glookup (process_sensor extObjNil "p1" recC3w emptyRegistry).1.humidity_g
        (recC3w.identity "p1")).isSome
        = (truthyOpt recC3w.stats && truthyOpt recC3w.humidity)) :=
  claim_C3 extObjNil "p1" recC3w emptyRegistry (by decide)
    ⟨by decide, by decide, by decide⟩

/-- C5 fails on the code: every field gate is a Python truthiness test, so
a raw value of zero is treated like an absent field.  A record whose
temperature, pressure and humidity all read zero (and whose stats parse to
an empty dict) exports nothing at all, while the claim demands each metric
be exported with the value derived from zero. -/
theorem claim_C5_counterexample :
    recC5.temperature = some (.num 0) ∧ recC5.pressure = some (.num 0) ∧
    recC5.humidity = some (.num 0) ∧
    process_sensor extObjNil "p1" recC5 emptyRegistry
      = (emptyRegistry, false) := by decide

/-- C5 amended: a raw field whose value is zero is treated as absent, not
as present: starting from an empty registry, a zero temperature, pressure
or humidity leaves its gauge empty, and a zero 10-minute PM2.5 average
leaves the raw-AQI gauge empty — whatever else the record holds and
whatever the external hooks do. -/
theorem claim_C5 (e : Ext) (parent : String) (s : SensorRecord) :
    (s.temperature = some (.num 0) →
      (process_sensor e parent s emptyRegistry).1.temp_g = []) ∧
    (s.pressure = some (.num 0) →
      (process_sensor e parent s emptyRegistry).1.pressure_g = []) ∧
    (s.humidity = some (.num 0) →
      (process_sensor e parent s emptyRegistry).1.humidity_g = []) ∧
    (∀ stJ st : Json, s.stats = some stJ → json_loads e stJ = .ok st →
      dictGet st "pm2.5_10minute" = .ok (some (.num 0)) →
      (process_sensor e parent s emptyRegistry).1.aqi_g = []) := by
  refine ⟨fun h0 => ?_, fun h0 => ?_, fun h0 => ?_,
          fun stJ st h1 h2 h3 => ?_⟩
  · exact process_sensor_temp_nil e parent s emptyRegistry
      (by rw [h0]; decide) rfl
  · exact process_sensor_pressure_nil e parent s emptyRegistry
      (by rw [h0]; decide) rfl
  · exact process_sensor_humidity_nil e parent s emptyRegistry
      (by rw [h0]; decide) rfl
  · exact process_sensor_aqi_nil e parent s emptyRegistry stJ st
      (some (.num 0)) h1 h2 h3 (by decide) rfl

/-- Witness for C5 amended: the zero-valued record of the counterexample
leaves the three weather gauges empty, and a record whose stats decode to a
zero PM2.5 average leaves the raw-AQI gauge empty. -/
theorem claim_C5_witness :
    (process_sensor extObjNil "p1" recC5 emptyRegistry).1.temp_g = [] ∧
    (process_sensor extObjNil "p1" recC5 emptyRegistry).1.pressure_g = [] ∧
    (process_sensor extObjNil "p1" recC5 emptyRegistry).1.humidity_g = [] ∧
    (process_sensor extZeroPm "p1" recZeroPm emptyRegistry).1.aqi_g = [] :=
  ⟨(claim_C5 extObjNil "p1" recC5).1 rfl,
   (claim_C5 extObjNil "p1" recC5).2.1 rfl,
   (claim_C5 extObjNil "p1" recC5).2.2.1 rfl,
   (claim_C5 extZeroPm "p1" recZeroPm).2.2.2 (.str "Z") zeroBlob rfl rfl
     (by decide)⟩

/-- C6 fails on the code at v = 0: the claim covers every average v ≥ 0,
but `if pm25_10min_raw:` treats a zero average as absent, so a record whose
stats carry a present zero average produces no index values at all instead
of the three the claim demands. -/
theorem claim_C6_counterexample :
    json_loads extZeroPm (.str "Z") = .ok zeroBlob ∧
    dictGet zeroBlob "pm2.5_10minute" = .ok (some (.num 0)) ∧
    process_sensor extZeroPm "p1" recZeroPm emptyRegistry
      = (emptyRegistry, false) := by decide

/-- C6 amended: for every 10-minute PM2.5 average v > 0 in a record whose
iteration succeeds, exactly the three index gauges are set for that
identity, with values toIaqi v, toIaqi (0.778·v + 2.65) and
toIaqi (max (0.5·v − 0.66) 0) — all three through the same external
converter. -/
theorem claim_C6 (e : Ext) (parent : String) (s : SensorRecord) (r : Registry)
    (stJ st : Json) (v : ℚ)
    (hst : s.stats = some stJ) (htr : truthy stJ = true)
    (hload : json_loads e stJ = .ok st)
    (hget : dictGet st "pm2.5_10minute" = .ok (some (.num v)))
    (hv : 0 < v)
    (hok : (process_sensor e parent s r).2 = false) :
    glookup (process_sensor e parent s r).1.aqi_g (s.identity parent)
        = some (e.toIaqi v) ∧
    glookup (process_sensor e parent s r).1.aqi_AQandU_g (s.identity parent)
        = some (e.toIaqi (0.778 * v + 2.65)) ∧
    glookup (process_sensor e parent s r).1.aqi_LRAPA_g (s.identity parent)
        = some (e.toIaqi (max (0.5 * v - 0.66) 0)) := by
  have hmax : max v 0 = v := max_eq_left hv.le
  have hpm := pm25_sets_num e (s.identity parent) st r v hget (ne_of_gt hv)
  rw [hmax] at hpm
  cases htb : try_body e parent s r with
  | error r1 => simp [process_sensor, htb] at hok
  | ok r1 =>
    have hres : (process_sensor e parent s r).1 = r1 := by
      simp [process_sensor, htb]
    rw [hres]
    simp only [try_body, hst, htr, if_true, hload, hpm] at htb
    have hfr := weather_sets_aqi_frame e (s.identity parent) s
      ⟨gset r.aqi_g (s.identity parent) (e.toIaqi v),
       gset r.aqi_AQandU_g (s.identity parent) (e.toIaqi (0.778 * v + 2.65)),
       gset r.aqi_LRAPA_g (s.identity parent)
         (e.toIaqi (max (0.5 * v - 0.66) 0)),
       r.temp_g, r.pressure_g, r.humidity_g⟩
    rw [htb] at hfr
    simp only [outReg] at hfr
    obtain ⟨f1, f2, f3⟩ := hfr
    rw [f1, f2, f3]
    refine ⟨?_, ?_, ?_⟩ <;> simp [glookup_gset_self]

/-- Witness for C6 amended: a 12.0 average yields the three converter
outputs at 12, 0.778·12 + 2.65 and max (0.5·12 − 0.66) 0. -/
theorem claim_C6_witness :
    glookup (process_sensor extBlob12 "p1" rec12 emptyRegistry).1.aqi_g
        (rec12.identity "p1") = some (extBlob12.toIaqi 12) ∧
    glookup (process_sensor extBlob12 "p1" rec12 emptyRegistry).1.aqi_AQandU_g
        (rec12.identity "p1") = some (extBlob12.toIaqi (0.778 * 12 + 2.65)) ∧
    glookup (process_sensor extBlob12 "p1" rec12 emptyRegistry).1.aqi_LRAPA_g
        (rec12.identity "p1")
        = some (extBlob12.toIaqi (max (0.5 * 12 - 0.66) 0)) :=
  claim_C6 extBlob12 "p1" rec12 emptyRegistry (.str "ST") blob12 12 rfl
    (by decide) rfl (by decide) (by norm_num) (by decide)

/-- C8 fails on the code: the AQandU-corrected concentration for a 12.0
average is 0.778·12 + 2.65 = 11.986, not the 11.94 the claim states, so the
exported AQandU gauge value is the converter's output at 11.986 — which
differs from its output at 11.94 for converters that distinguish the two
(here the identity instantiation of the external pure converter). -/
theorem claim_C8_counterexample :
    glookup (check_sensor extBlob12 "p1" ⟨200, .ok [recC8]⟩
        emptyRegistry).1.aqi_AQandU_g idA = some (extBlob12.toIaqi 11.986) ∧
    extBlob12.toIaqi 11.986 ≠ extBlob12.toIaqi 11.94 := by
  constructor
  · norm_num [check_sensor, process_sensors, process_sensor, try_body,
      json_loads, extBlob12, blob12, pm25_sets, dictGet, fieldsFind, truthy,
      pyFloat, weather_sets, temp_step, pressure_step, humidity_step, recC8,
      gset, glookup, emptyRegistry, idA, SensorRecord.identity, outReg,
      sup_eq_max, max_def, (show ¬("ST" : String) = "" by decide)]
  · simp only [extBlob12]
    norm_num

/-- C8 amended: after one successful tick for the spec's worked example the
registry holds all six values for the identity — temperature 72.5, humidity
40, pressure 1013, raw-AQI = AQI(12.0), LRAPA-AQI = AQI(5.34), and
AQandU-AQI = AQI(11.986) (0.778·12.0 + 2.65 = 11.986, not 11.94). -/
theorem claim_C8 (e : Ext) (hload : e.loads "ST" = .ok blob12) :
    check_sensor e "p1" ⟨200, .ok [recC8]⟩ emptyRegistry
      = (⟨[(idA, e.toIaqi 12)], [(idA, e.toIaqi 11.986)],
          [(idA, e.toIaqi 5.34)], [(idA, 72.5)], [(idA, 1013)],
          [(idA, 40)]⟩, false) := by
  norm_num [check_sensor, process_sensors, process_sensor, try_body,
    json_loads, hload, blob12, pm25_sets, dictGet, fieldsFind, truthy,
    pyFloat, weather_sets, temp_step, pressure_step, humidity_step, recC8,
    gset, emptyRegistry, idA, SensorRecord.identity, sup_eq_max, max_def,
    (show ¬("ST" : String) = "" by decide)]

/-- Witness for C8 amended: the identity instantiation of the converter. -/
theorem claim_C8_witness :
    check_sensor extBlob12 "p1" ⟨200, .ok [recC8]⟩ emptyRegistry
      = (⟨[(idA, extBlob12.toIaqi 12)], [(idA, extBlob12.toIaqi 11.986)],
          [(idA, extBlob12.toIaqi 5.34)], [(idA, 72.5)], [(idA, 1013)],
          [(idA, 40)]⟩, false) :=
  claim_C8 extBlob12 rfl

/-- C9: when the fetch succeeded and the transform fails on one record of
the batch, the loop stops at that record: the final state is exactly what
that record's failing iteration left on top of the earlier records' state
(the suffix is never processed), and every gauge entry under any identity
other than the failing record's is unchanged from the state after the
earlier records — only the failing identity's entries are removed. -/
theorem claim_C9 (e : Ext) (parent : String) (pre : List SensorRecord)
    (bad : SensorRecord) (post : List SensorRecord) (r : Registry)
    (hpre : ∀ s ∈ pre, ∀ r0 : Registry,
      (process_sensor e parent s r0).2 = false)
    (hbad : ∀ r0 : Registry, (process_sensor e parent bad r0).2 = true) :
    process_sensors e parent (pre ++ bad :: post) r
      = ((process_sensor e parent bad (run_records e parent pre r)).1, true) ∧
    ∀ j : Identity, j ≠ bad.identity parent →
      sameAt (run_records e parent pre r)
        (process_sensors e parent (pre ++ bad :: post) r).1 j := by
  have h1 := process_sensors_ok_prefix e parent pre (bad :: post) r hpre
  have h2 : process_sensors e parent (bad :: post) (run_records e parent pre r)
      = ((process_sensor e parent bad (run_records e parent pre r)).1, true) := by
    have hb := hbad (run_records e parent pre r)
    rcases hps : process_sensor e parent bad (run_records e parent pre r)
      with ⟨r1, b⟩
    rw [hps] at hb
    simp only at hb
    subst hb
    simp [process_sensors, hps]
  refine ⟨h1.trans h2, fun j hj => ?_⟩
  rw [h1, h2]
  exact process_sensor_sameAt e parent bad (run_records e parent pre r) j hj

/-- Witness for C9: channel B's record succeeds and exports a temperature;
the next record's stats are an already-structured dict, so its transform
fails and the loop aborts, leaving channel B's entry untouched. -/
theorem claim_C9_witness :
    process_sensors extObjNil "p1" ([recPreB] ++ recBad :: [recC3])
        emptyRegistry
      = ((process_sensor extObjNil "p1" recBad
            (run_records extObjNil "p1" [recPreB] emptyRegistry)).1, true) ∧
    sameAt (run_records extObjNil "p1" [recPreB] emptyRegistry)
      (process_sensors extObjNil "p1" ([recPreB] ++ recBad :: [recC3])
          emptyRegistry).1 idB :=
  have h := claim_C9 extObjNil "p1" [recPreB] recBad [recC3] emptyRegistry
    (by
      intro s0 hs r0
      simp only [List.mem_singleton] at hs
      subst hs
      rfl)
    (fun r0 => rfl)
  ⟨h.1, h.2 idB (by decide)⟩

end PurpleToProm
